import Mathlib

/-!
Verification of the channel-pool allocation and session lifecycle logic of the
skillyug backend.

The development shallowly embeds the Prisma-backed state of the service
(`ivs_channels` and `scheduled_sessions` tables, see
prisma/migrations/20251202033929_add_channel_pool_architecture) as Lean lists,
and the service operations as pure state-passing functions.  Remote AWS IVS
calls (`GetStreamCommand`, stream-key creation) are modelled as oracles passed
in as arguments: a probe oracle maps a channel ARN to the outcome of one
`GetStream` call, and a key-issuance oracle maps a channel ARN to either a
stream key or a thrown service error.

Sources embedded:
- src/services/streaming.service.unified.ts   (StreamingService, mock mode off)
- src/controllers/ivs-simple.controller.ts    (IvsSimpleController)
- channelPool.service.ts                      (ChannelPoolService, src/unnamed/part_007)
- session.service enterprise variant          (SessionService, src/unnamed/part_006)

Conventions: timestamps are `Nat`; `isActive` is the busy flag of a channel
row; float-valued usage counters (`totalUsageHours`) and presentation-only
columns (channel names, course metadata) are not referenced by any verified
property and are omitted from the row types.
-/

/-- Status enum of `scheduled_sessions.status` (`SessionStatus` in the Prisma
schema). -/
inductive SessionStatus where
  | scheduled
  | live
  | ended
  | cancelled
deriving DecidableEq

/-- One row of the `ivs_channels` table (fields used by the pool logic). -/
structure Channel where
  id : String
  channelArn : String
  ingestEndpoint : String
  playbackUrl : String
  isActive : Bool
  isEnabled : Bool
  assignedToSessionId : Option String
  lastUsedAt : Option Nat
deriving DecidableEq

/-- One row of the `scheduled_sessions` table (fields used by the lifecycle
logic); `mentorUserId` is the flattened `mentorProfile.userId` join used by
ownership checks. -/
structure ScheduledSession where
  id : String
  mentorUserId : String
  status : SessionStatus
  ivsChannelId : Option String
  currentStreamKey : Option String
  startedAt : Option Nat
  endedAt : Option Nat
deriving DecidableEq

/-- The persisted state the services read and write. -/
structure Db where
  channels : List Channel
  sessions : List ScheduledSession
deriving DecidableEq

instance {α β : Type} [DecidableEq α] [DecidableEq β] : DecidableEq (Except α β) :=
  fun a b =>
  match a, b with
  | .error x, .error y =>
    if h : x = y then isTrue (by rw [h]) else isFalse (by intro hc; injection hc; exact h ‹_›)
  | .error _, .ok _ => isFalse (by intro hc; exact Except.noConfusion hc)
  | .ok _, .error _ => isFalse (by intro hc; exact Except.noConfusion hc)
  | .ok x, .ok y =>
    if h : x = y then isTrue (by rw [h]) else isFalse (by intro hc; injection hc; exact h ‹_›)

/-- `prisma.iVSChannel.findUnique({ where: { id } })`. -/
def findChannel (db : Db) (cid : String) : Option Channel :=
  db.channels.find? (fun c => c.id == cid)

/-- `prisma.scheduledSession.findUnique({ where: { id } })`. -/
def findSession (db : Db) (sid : String) : Option ScheduledSession :=
  db.sessions.find? (fun s => s.id == sid)

/-- `prisma.iVSChannel.update({ where: { id }, data })`: rewrite the row with
the given id. -/
def updateChannel (db : Db) (cid : String) (f : Channel → Channel) : Db :=
  { db with channels := db.channels.map (fun c => if c.id == cid then f c else c) }

/-- `prisma.scheduledSession.update({ where: { id }, data })`. -/
def updateSession (db : Db) (sid : String) (f : ScheduledSession → ScheduledSession) : Db :=
  { db with sessions := db.sessions.map (fun s => if s.id == sid then f s else s) }

/-- The drift-repair write `update({ where: { id }, data: { isActive: true } })`
both scans perform on a channel the remote side reports live. -/
def markChannelActive (db : Db) (cid : String) : Db :=
  updateChannel db cid (fun c => { c with isActive := true })

/-- Candidate order used by `orderBy: { lastUsedAt: 'asc' }`.  The backing
database is PostgreSQL (see the SQL migrations), whose default for `ASC` is
`NULLS LAST`, so a never-used channel (`lastUsedAt` null) sorts after every
used one. -/
def lastUsedLEb (a b : Channel) : Bool :=
  match a.lastUsedAt, b.lastUsedAt with
  | some x, some y => decide (x ≤ y)
  | none, some _ => false
  | _, none => true

/-- Propositional form of `lastUsedLEb`. -/
def lastUsedLE (a b : Channel) : Prop :=
  lastUsedLEb a b = true

instance : DecidableRel lastUsedLE :=
  fun a b => inferInstanceAs (Decidable (lastUsedLEb a b = true))

instance : IsTotal Channel lastUsedLE := by
  constructor
  intro a b
  unfold lastUsedLE lastUsedLEb
  rcases ha : a.lastUsedAt with _ | x <;> rcases hb : b.lastUsedAt with _ | y <;> simp
  exact Nat.le_total x y

instance : IsTrans Channel lastUsedLE := by
  constructor
  intro a b c hab hbc
  unfold lastUsedLE lastUsedLEb at hab hbc ⊢
  rcases ha : a.lastUsedAt with _ | x <;> rcases hb : b.lastUsedAt with _ | y <;>
    rcases hc : c.lastUsedAt with _ | z <;> simp_all
  exact Nat.le_trans hab hbc

/-- `findMany({ where: { isActive: false, isEnabled: true }, orderBy:
{ lastUsedAt: 'asc' } })` — the candidate query shared by
`StreamingService.findAvailableChannel` and
`ChannelPoolService.findFreeChannel`. -/
def poolCandidates (db : Db) : List Channel :=
  List.insertionSort lastUsedLE (db.channels.filter (fun c => !c.isActive && c.isEnabled))

/-- `findMany({ where: { isActive: false } })` — the candidate query of
`IvsSimpleController.getAvailableChannel` (no `isEnabled` filter, no
ordering). -/
def simpleChannelCandidates (db : Db) : List Channel :=
  db.channels.filter (fun c => !c.isActive)

/-- Outcome of one remote `GetStreamCommand` call for a channel ARN. -/
inductive GetStreamOutcome where
  | streamState (state : String)
  | noStream
  | failure (name : String)
deriving DecidableEq

/-- `StreamingService.isChannelLive` (unified service, mock mode off):
`response.stream?.state === 'LIVE'`; a thrown `ResourceNotFoundException` or
`ChannelNotBroadcasting` means not live, any other thrown error is
rethrown. -/
def isChannelLive (o : GetStreamOutcome) : Except String Bool :=
  match o with
  | .streamState st => .ok (st == "LIVE")
  | .noStream => .ok false
  | .failure n =>
    if n == "ResourceNotFoundException" || n == "ChannelNotBroadcasting" then .ok false
    else .error n

/-- `ChannelPoolService.verifyChannelIsFree`: free iff no stream or state not
LIVE; `ResourceNotFoundException`/`ChannelNotBroadcasting` mean free, and any
other error is logged and the channel is assumed busy (`return false`). -/
def verifyChannelIsFree (o : GetStreamOutcome) : Bool :=
  match o with
  | .streamState st => st != "LIVE"
  | .noStream => true
  | .failure n =>
    if n == "ResourceNotFoundException" || n == "ChannelNotBroadcasting" then true
    else false

/-- The candidate loop of `StreamingService.findAvailableChannel`: probe each
candidate with `isChannelLive`; return the first not-live one; on a live
answer fix the drifted row (`isActive: true`) and continue; a rethrown probe
error propagates out of the loop.  Returns the loop outcome together with the
store as left behind by the drift-repair writes. -/
def scanChannels (probe : String → GetStreamOutcome) :
    List Channel → Db → Except String (Option Channel) × Db
  | [], db => (.ok none, db)
  | c :: rest, db =>
    match isChannelLive (probe c.channelArn) with
    | .error e => (.error e, db)
    | .ok false => (.ok (some c), db)
    | .ok true => scanChannels probe rest (markChannelActive db c.id)

/-- `StreamingService.findAvailableChannel`. -/
def findAvailableChannel (db : Db) (probe : String → GetStreamOutcome) :
    Except String (Option Channel) × Db :=
  scanChannels probe (poolCandidates db) db

/-- The candidate loop of `ChannelPoolService.findFreeChannel`: same shape, but
probe failures are folded into `verifyChannelIsFree = false` (assume busy), so
the loop is total and never aborts. -/
def scanChannelsPool (probe : String → GetStreamOutcome) :
    List Channel → Db → Option Channel × Db
  | [], db => (none, db)
  | c :: rest, db =>
    if verifyChannelIsFree (probe c.channelArn) then (some c, db)
    else scanChannelsPool probe rest (markChannelActive db c.id)

/-- `ChannelPoolService.findFreeChannel` (the early return on an empty
candidate list coincides with scanning the empty list). -/
def findFreeChannel (db : Db) (probe : String → GetStreamOutcome) :
    Option Channel × Db :=
  scanChannelsPool probe (poolCandidates db) db

/-- Every channel row carrying this id is busy in the store. -/
def busyAll (db : Db) (cid : String) : Prop :=
  ∀ c ∈ db.channels, c.id = cid → c.isActive = true

/-- Every channel row carrying this id is free in the store. -/
def freeAll (db : Db) (cid : String) : Prop :=
  ∀ c ∈ db.channels, c.id = cid → c.isActive = false

/-- Typed errors thrown by the services (`NotFoundError`,
`AuthorizationError`, `BusinessLogicError`, and a rethrown AWS SDK error). -/
inductive ServiceErr where
  | notFound (what : String)
  | unauthorized (msg : String)
  | businessLogic (msg : String)
  | gateway (name : String)
deriving DecidableEq

/-- `getSessionCredentials` pool-empty message (the two concatenated string
literals of the source). -/
def poolEmptyMsg : String :=
  "No streaming channels available. Please contact admin to initialize the channel pool. Admin can run: npm run init-channels"

/-- `getSessionCredentials` pool-exhausted message. -/
def poolExhaustedMsg : String :=
  "All streaming channels are currently in use. Please try again in a few minutes or contact admin."

/-- Guard message for starting a session that is already LIVE. -/
def alreadyLiveMsg : String := "Session is already live"

/-- Guard message for starting a CANCELLED session (SessionService,
part_006). -/
def cancelledGuardMsg : String := "Cannot start a cancelled session"

/-- Guard message for starting an ENDED session (SessionService, part_006). -/
def endedGuardMsg : String := "Cannot restart an ended session"

/-- `SessionService.startSession` message when `findFreeChannel` returns null
(part_006) — a single message, used whether the pool is empty or merely
exhausted. -/
def noFreeChannelsMsg : String :=
  "No free channels available. Please wait for another session to end or contact admin to add more channels."

/-- `assignChannelToSession` guard message (part_007). -/
def channelInUseMsg : String := "Channel is already in use"

/-- `releaseChannel` guard message (part_007). -/
def activeSessionsMsg : String := "Channel still has active sessions"

/-- `StreamingService.startSession` message when the assigned channel is not
broadcasting. -/
def obsNotLiveMsg : String := "Stream is not live. Please start OBS first."

/-- Credentials payload returned by the allocation paths. -/
structure Credentials where
  ingestServer : String
  streamKey : String
  playbackUrl : String
  channelId : String
deriving DecidableEq

/-- The tail of `StreamingService.getSessionCredentials` after the candidate
scan (source lines 220-296): pool-empty vs pool-exhausted errors when the scan
found nothing, stream-key issuance (`issueKey` covers the ListStreamKeys /
CreateStreamKey / GetStreamKey block: it yields a key or the error the block
throws), then the two assignment writes (session row first, channel row
second). -/
def allocAndAssign (sid : String) (issueKey : String → Except ServiceErr String)
    (now : Nat) : Except String (Option Channel) × Db → Except ServiceErr Credentials × Db
  | (.error e, db1) => (.error (.gateway e), db1)
  | (.ok none, db1) =>
    if db1.channels.length == 0 then (.error (.businessLogic poolEmptyMsg), db1)
    else (.error (.businessLogic poolExhaustedMsg), db1)
  | (.ok (some ch), db1) =>
    match issueKey ch.channelArn with
    | .error e => (.error e, db1)
    | .ok key =>
      let db2 := updateSession db1 sid (fun t =>
        { t with ivsChannelId := some ch.id, currentStreamKey := some key })
      let db3 := updateChannel db2 ch.id (fun c =>
        { c with isActive := true, assignedToSessionId := some sid,
                 lastUsedAt := some now })
      (.ok { ingestServer := ch.ingestEndpoint, streamKey := key,
             playbackUrl := ch.playbackUrl, channelId := ch.id }, db3)

/-- `StreamingService.getSessionCredentials`: ownership check, short-circuit on
an existing assignment, then the candidate scan followed by `allocAndAssign`
(pool errors, key issuance, assignment writes). -/
def getSessionCredentials (db : Db) (sid uid : String)
    (probe : String → GetStreamOutcome) (issueKey : String → Except ServiceErr String)
    (now : Nat) : Except ServiceErr Credentials × Db :=
  match findSession db sid with
  | none => (.error (.notFound "Session"), db)
  | some s =>
    if s.mentorUserId != uid then
      (.error (.unauthorized "Only the session owner can access credentials"), db)
    else
      match s.ivsChannelId.bind (fun cid => findChannel db cid), s.currentStreamKey with
      | some ch, some key =>
        (.ok { ingestServer := ch.ingestEndpoint, streamKey := key,
               playbackUrl := ch.playbackUrl, channelId := ch.id }, db)
      | _, _ => allocAndAssign sid issueKey now (findAvailableChannel db probe)

/-- The channel-release write shared by `endSession`,
`releaseSessionCredentials` (unified service) and `stopSession`
(ivs-simple controller): `{ isActive: false, assignedToSessionId: null }`. -/
def releaseChannelRow (db : Db) (cid : String) : Db :=
  updateChannel db cid (fun c => { c with isActive := false, assignedToSessionId := none })

/-- `StreamingService.endSession`: after the ownership check the code FIRST
frees the channel row, THEN flips the session row to ENDED and clears its
channel and stream key.  There is no status guard. -/
def endSession (db : Db) (sid uid : String) (now : Nat) : Except ServiceErr Unit × Db :=
  match findSession db sid with
  | none => (.error (.notFound "Session"), db)
  | some s =>
    if s.mentorUserId != uid then
      (.error (.unauthorized "Only the session owner can end it"), db)
    else
      let db1 := match s.ivsChannelId with
        | some cid => releaseChannelRow db cid
        | none => db
      let db2 := updateSession db1 sid (fun t =>
        { t with status := .ended, endedAt := some now,
                 ivsChannelId := none, currentStreamKey := none })
      (.ok (), db2)

/-- `StreamingService.startSession` (mock mode off): rejects only an
already-LIVE session; when a channel is assigned it verifies the stream is
broadcasting; it then marks the session LIVE — even a session with no channel
at all. -/
def startSessionUnified (db : Db) (sid uid : String)
    (probe : String → GetStreamOutcome) (now : Nat) : Except ServiceErr Unit × Db :=
  match findSession db sid with
  | none => (.error (.notFound "Session"), db)
  | some s =>
    if s.mentorUserId != uid then
      (.error (.unauthorized "Only the session owner can start it"), db)
    else if s.status = .live then (.error (.businessLogic alreadyLiveMsg), db)
    else
      let verdict : Except ServiceErr Unit :=
        match s.ivsChannelId.bind (fun cid => findChannel db cid) with
        | some ch =>
          match isChannelLive (probe ch.channelArn) with
          | .error e => .error (.gateway e)
          | .ok true => .ok ()
          | .ok false => .error (.businessLogic obsNotLiveMsg)
        | none => .ok ()
      match verdict with
      | .error e => (.error e, db)
      | .ok _ =>
        (.ok (), updateSession db sid (fun t => { t with status := .live, startedAt := some now }))

/-- `IvsSimpleController.stopSession`: frees the channel row, then updates the
session row to ENDED with `ivsChannelId: null` — `currentStreamKey` is NOT
cleared. -/
def stopSessionSimple (db : Db) (sid uid : String) (isAdmin : Bool) (now : Nat) :
    Except ServiceErr Unit × Db :=
  match findSession db sid with
  | none => (.error (.notFound "not found"), db)
  | some s =>
    if s.mentorUserId != uid && !isAdmin then (.error (.unauthorized "forbidden"), db)
    else
      match s.ivsChannelId with
      | none => (.ok (), db)
      | some cid =>
        let db1 := releaseChannelRow db cid
        let db2 := updateSession db1 sid (fun t =>
          { t with ivsChannelId := none, status := .ended, endedAt := some now })
        (.ok (), db2)

/-- The read-and-guard half of `ChannelPoolService.assignChannelToSession`
(part_007): `findUnique`, `NotFoundError` on a missing row,
`BusinessLogicError` when the row is already busy. -/
def assignCheck (db : Db) (cid : String) : Except ServiceErr Channel :=
  match findChannel db cid with
  | none => .error (.notFound "Channel")
  | some c => if c.isActive then .error (.businessLogic channelInUseMsg) else .ok c

/-- The write half of `assignChannelToSession`: set `isActive`,
`assignedToSessionId` and `lastUsedAt` unconditionally on the row with this
id. -/
def assignCommit (db : Db) (cid sid : String) (now : Nat) : Db :=
  updateChannel db cid (fun c =>
    { c with isActive := true, assignedToSessionId := some sid, lastUsedAt := some now })

/-- `ChannelPoolService.assignChannelToSession`: check, await stream-key
creation (a suspension point), then commit. -/
def assignChannelToSession (db : Db) (cid sid : String)
    (issueKey : String → Except ServiceErr String) (now : Nat) :
    Except ServiceErr String × Db :=
  match assignCheck db cid with
  | .error e => (.error e, db)
  | .ok c =>
    match issueKey c.channelArn with
    | .error e => (.error e, db)
    | .ok key => (.ok key, assignCommit db cid sid now)

/-- One legal interleaving of two concurrent `assignChannelToSession` calls for
the same channel: each call runs its read-and-guard step while the other is
suspended in the `createStreamKey` await, then both commit (stream-key
creation succeeding with `key1` resp. `key2`).  Nothing in the code serializes
the two calls: the guard is a plain read followed by an unconditional
update. -/
def racingAssigns (db : Db) (cid s1 s2 key1 key2 : String) (t1 t2 : Nat) :
    Except ServiceErr String × Except ServiceErr String × Db :=
  match assignCheck db cid, assignCheck db cid with
  | .ok _, .ok _ => (.ok key1, .ok key2, assignCommit (assignCommit db cid s1 t1) cid s2 t2)
  | .ok _, .error e2 => (.ok key1, .error e2, assignCommit db cid s1 t1)
  | .error e1, .ok _ => (.error e1, .ok key2, assignCommit db cid s2 t2)
  | .error e1, .error e2 => (.error e1, .error e2, db)

/-- The session-row write `SessionService.startSession` (part_006) performs
after a successful channel assignment. -/
def recordAssignment (db : Db) (sid cid key : String) (now : Nat) : Db :=
  updateSession db sid (fun t =>
    { t with ivsChannelId := some cid, currentStreamKey := some key,
             status := .live, startedAt := some now })

/-- `ChannelPoolService.releaseChannel` (part_007): refuses to free the channel
while any session row referencing it is still LIVE, otherwise frees it. -/
def releaseChannelPool (db : Db) (cid : String) : Except ServiceErr Unit × Db :=
  match findChannel db cid with
  | none => (.error (.notFound "Channel"), db)
  | some _ =>
    if 0 < (db.sessions.filter (fun s =>
        s.ivsChannelId == some cid && s.status == SessionStatus.live)).length then
      (.error (.businessLogic activeSessionsMsg), db)
    else
      (.ok (), releaseChannelRow db cid)

/-- `SessionService.startSession` (part_006): ownership check, the three
distinct status guards, resume path on an existing assignment, otherwise
`findFreeChannel` + `assignChannelToSession` + session-row update.  A null
`findFreeChannel` yields the single `noFreeChannelsMsg` error. -/
def startSessionPool (db : Db) (sid uid : String)
    (probe : String → GetStreamOutcome) (issueKey : String → Except ServiceErr String)
    (now : Nat) : Except ServiceErr Unit × Db :=
  match findSession db sid with
  | none => (.error (.notFound "Session"), db)
  | some s =>
    if s.mentorUserId != uid then
      (.error (.unauthorized "Only the session owner can start it"), db)
    else if s.status = .live then (.error (.businessLogic alreadyLiveMsg), db)
    else if s.status = .cancelled then (.error (.businessLogic cancelledGuardMsg), db)
    else if s.status = .ended then (.error (.businessLogic endedGuardMsg), db)
    else
      match s.ivsChannelId with
      | some cid =>
        match findChannel db cid with
        | none => (.error (.businessLogic "Assigned channel not found. Please contact admin."), db)
        | some _ =>
          match assignChannelToSession db cid sid issueKey now with
          | (.error e, db1) => (.error e, db1)
          | (.ok _, db1) =>
            (.ok (), updateSession db1 sid (fun t =>
              { t with status := .live, startedAt := some now }))
      | none =>
        match findFreeChannel db probe with
        | (none, db1) => (.error (.businessLogic noFreeChannelsMsg), db1)
        | (some ch, db1) =>
          match assignChannelToSession db1 ch.id sid issueKey now with
          | (.error e, db2) => (.error e, db2)
          | (.ok key, db2) => (.ok (), recordAssignment db2 sid ch.id key now)

/-- `SessionService.endSession` (part_006): ownership and LIVE guards, then a
`releaseChannel` attempt whose error is caught and swallowed, then the
session-row update to ENDED (clearing the stream key but NOT `ivsChannelId`).
The float usage-hours increment is omitted (no verified property reads it). -/
def endSessionPool (db : Db) (sid uid : String) (now : Nat) :
    Except ServiceErr Unit × Db :=
  match findSession db sid with
  | none => (.error (.notFound "Session"), db)
  | some s =>
    if s.mentorUserId != uid then
      (.error (.unauthorized "Only the session owner can end it"), db)
    else if !(s.status = SessionStatus.live) then
      (.error (.businessLogic "Session is not currently live"), db)
    else
      let db1 := match s.ivsChannelId with
        | some cid => (releaseChannelPool db cid).2
        | none => db
      (.ok (), updateSession db1 sid (fun t =>
        { t with status := .ended, endedAt := some now, currentStreamKey := none }))

/-- Aggregate counts returned by `getChannelStats` (both the unified service
and part_007 run the same four `count` queries). -/
structure ChannelStats where
  total : Nat
  active : Nat
  free : Nat
  disabled : Nat
deriving DecidableEq

/-- `StreamingService.getChannelStats` / `ChannelPoolService.getChannelStats`:
`count()`, `count({ isActive: true, isEnabled: true })`,
`count({ isActive: false, isEnabled: true })`, `count({ isEnabled: false })`. -/
def getChannelStats (db : Db) : ChannelStats :=
  { total := db.channels.length
    active := (db.channels.filter (fun c => c.isActive && c.isEnabled)).length
    free := (db.channels.filter (fun c => !c.isActive && c.isEnabled)).length
    disabled := (db.channels.filter (fun c => !c.isEnabled)).length }

/-- Session invariant, first half: a stream key is held only with a channel
assigned. -/
def keyImpliesChannel (s : ScheduledSession) : Prop :=
  s.currentStreamKey.isSome = true → s.ivsChannelId.isSome = true

/-- Session invariant, second half: LIVE only with a channel assigned. -/
def liveImpliesChannel (s : ScheduledSession) : Prop :=
  s.status = .live → s.ivsChannelId.isSome = true

/-- The session invariant over the whole store. -/
def sessionsInv (db : Db) : Prop :=
  ∀ s ∈ db.sessions, keyImpliesChannel s ∧ liveImpliesChannel s

instance (s : ScheduledSession) : Decidable (keyImpliesChannel s) :=
  inferInstanceAs (Decidable (s.currentStreamKey.isSome = true → s.ivsChannelId.isSome = true))

instance (s : ScheduledSession) : Decidable (liveImpliesChannel s) :=
  inferInstanceAs (Decidable (s.status = .live → s.ivsChannelId.isSome = true))

instance (db : Db) : Decidable (sessionsInv db) :=
  inferInstanceAs (Decidable (∀ s ∈ db.sessions, keyImpliesChannel s ∧ liveImpliesChannel s))

/-! Concrete fixtures used by the counterexamples and witnesses. -/

/-- A free, enabled, never-used channel. -/
def chFree : Channel :=
  { id := "c1", channelArn := "arn-c1", ingestEndpoint := "ingest-1",
    playbackUrl := "play-1", isActive := false, isEnabled := true,
    assignedToSessionId := none, lastUsedAt := none }

/-- A scheduled session owned by mentor u1, no channel yet. -/
def sessSched1 : ScheduledSession :=
  { id := "s1", mentorUserId := "u1", status := .scheduled, ivsChannelId := none,
    currentStreamKey := none, startedAt := none, endedAt := none }

/-- A second scheduled session, owned by mentor u2. -/
def sessSched2 : ScheduledSession :=
  { sessSched1 with id := "s2", mentorUserId := "u2" }

/-- Pool with one free channel and the two scheduled sessions. -/
def raceDb : Db := { channels := [chFree], sessions := [sessSched1, sessSched2] }

/-- The channel c1 busy and assigned to session s1. -/
def chBusy1 : Channel :=
  { chFree with isActive := true, assignedToSessionId := some "s1", lastUsedAt := some 10 }

/-- Session s1 LIVE on channel c1 holding stream key k1. -/
def sessLive1 : ScheduledSession :=
  { sessSched1 with status := .live, ivsChannelId := some "c1",
                    currentStreamKey := some "k1", startedAt := some 10 }

/-- A store with one LIVE session broadcasting on its assigned channel. -/
def liveDb : Db := { channels := [chBusy1], sessions := [sessLive1] }

/-- A free but admin-disabled channel. -/
def chDisabledFree : Channel :=
  { chFree with id := "cd", channelArn := "arn-cd", isEnabled := false }

/-- Store containing only the disabled free channel. -/
def disabledDb : Db := { channels := [chDisabledFree], sessions := [] }

/-- A channel the local store lists free but whose remote probe answers LIVE
(drifted). -/
def chDrift : Channel :=
  { chFree with id := "cl", channelArn := "arn-cl", lastUsedAt := some 1 }

/-- A genuinely free channel probed after the drifted one. -/
def chSpare : Channel :=
  { chFree with id := "cf", channelArn := "arn-cf", lastUsedAt := some 2 }

/-- Store with the drifted channel first in candidate order. -/
def driftDb : Db := { channels := [chDrift, chSpare], sessions := [sessSched1] }

/-- Probe oracle: the drifted channel is LIVE remotely, everything else has no
stream. -/
def driftProbe : String → GetStreamOutcome :=
  fun a => if a == "arn-cl" then .streamState "LIVE" else .noStream

/-- Probe oracle: probing the drifted channel throws a transient
`InternalError`, everything else has no stream. -/
def failProbe : String → GetStreamOutcome :=
  fun a => if a == "arn-cl" then .failure "InternalError" else .noStream

/-- Probe oracle: no channel has a stream. -/
def probeNone : String → GetStreamOutcome := fun _ => .noStream

/-- Key-issuance oracle that always succeeds. -/
def keyOk : String → Except ServiceErr String := fun _ => .ok "key-1"

/-- Key-issuance oracle that always throws a gateway error. -/
def keyFail : String → Except ServiceErr String := fun _ => .error (.gateway "InternalError")

/-- Store with one free channel and one owned scheduled session. -/
def poolDb : Db := { channels := [chFree], sessions := [sessSched1] }

/-- Store with a session but zero channels registered. -/
def emptyPoolDb : Db := { channels := [], sessions := [sessSched1] }

/-- A busy channel with no assignee recorded. -/
def chBusyIdle : Channel :=
  { chFree with id := "cb", channelArn := "arn-cb", isActive := true }

/-- Store whose only channel is busy: pool exhausted but not empty. -/
def busyPoolDb : Db := { channels := [chBusyIdle], sessions := [sessSched1] }

/-- A cancelled session owned by u1. -/
def sessCancelled : ScheduledSession := { sessSched1 with status := .cancelled }

/-- Store holding only the cancelled session. -/
def cancelledDb : Db := { channels := [], sessions := [sessCancelled] }

/-! Helper lemmas about the store primitives and the candidate scans. -/

@[simp]
theorem updateChannel_sessions (db : Db) (cid : String) (f : Channel → Channel) :
    (updateChannel db cid f).sessions = db.sessions := rfl

@[simp]
theorem updateSession_channels (db : Db) (sid : String) (f : ScheduledSession → ScheduledSession) :
    (updateSession db sid f).channels = db.channels := rfl

@[simp]
theorem markChannelActive_sessions (db : Db) (cid : String) :
    (markChannelActive db cid).sessions = db.sessions := rfl

@[simp]
theorem markChannelActive_length (db : Db) (cid : String) :
    (markChannelActive db cid).channels.length = db.channels.length := by
  simp [markChannelActive, updateChannel]

theorem busyAll_markChannelActive_self (db : Db) (cid : String) :
    busyAll (markChannelActive db cid) cid := by
  intro c hc hid
  simp only [markChannelActive, updateChannel, List.mem_map] at hc
  obtain ⟨d, -, rfl⟩ := hc
  by_cases h : d.id = cid
  · simp [h]
  · simp only [beq_iff_eq, if_neg h] at hid ⊢
    exact absurd hid h

theorem busyAll_markChannelActive (db : Db) (cid cid2 : String) (h : busyAll db cid) :
    busyAll (markChannelActive db cid2) cid := by
  intro c hc hid
  simp only [markChannelActive, updateChannel, List.mem_map] at hc
  obtain ⟨d, hd, rfl⟩ := hc
  by_cases hh : d.id = cid2
  · simp [hh]
  · simp only [beq_iff_eq, if_neg hh] at hid ⊢
    exact h d hd hid

theorem freeAll_markChannelActive (db : Db) (cid cid2 : String) (hne : cid2 ≠ cid)
    (h : freeAll db cid) : freeAll (markChannelActive db cid2) cid := by
  intro c hc hid
  simp only [markChannelActive, updateChannel, List.mem_map] at hc
  obtain ⟨d, hd, rfl⟩ := hc
  by_cases hh : d.id = cid2
  · simp only [beq_iff_eq, if_pos hh] at hid
    exact absurd (hh ▸ hid) hne
  · simp only [beq_iff_eq, if_neg hh] at hid ⊢
    exact h d hd hid

theorem scanChannels_sessions (probe : String → GetStreamOutcome) :
    ∀ (cands : List Channel) (db : Db),
      (scanChannels probe cands db).2.sessions = db.sessions := by
  intro cands
  induction cands with
  | nil => intro db; rfl
  | cons c rest ih =>
    intro db
    cases hp : isChannelLive (probe c.channelArn) with
    | error e => simp [scanChannels, hp]
    | ok b =>
      cases b with
      | false => simp [scanChannels, hp]
      | true => simp [scanChannels, hp, ih]

theorem scanChannels_length (probe : String → GetStreamOutcome) :
    ∀ (cands : List Channel) (db : Db),
      (scanChannels probe cands db).2.channels.length = db.channels.length := by
  intro cands
  induction cands with
  | nil => intro db; rfl
  | cons c rest ih =>
    intro db
    cases hp : isChannelLive (probe c.channelArn) with
    | error e => simp [scanChannels, hp]
    | ok b =>
      cases b with
      | false => simp [scanChannels, hp]
      | true => simp [scanChannels, hp, ih]

theorem scanChannels_busyAll_persist (probe : String → GetStreamOutcome) (cid : String) :
    ∀ (cands : List Channel) (db : Db), busyAll db cid →
      busyAll (scanChannels probe cands db).2 cid := by
  intro cands
  induction cands with
  | nil => intro db h; exact h
  | cons c rest ih =>
    intro db h
    cases hp : isChannelLive (probe c.channelArn) with
    | error e => simpa [scanChannels, hp] using h
    | ok b =>
      cases b with
      | false => simpa [scanChannels, hp] using h
      | true =>
        simp only [scanChannels, hp]
        exact ih _ (busyAll_markChannelActive _ _ _ h)

theorem scanChannels_selected_not_live (probe : String → GetStreamOutcome) :
    ∀ (cands : List Channel) (db : Db) (ch : Channel),
      (scanChannels probe cands db).1 = .ok (some ch) →
      isChannelLive (probe ch.channelArn) = .ok false ∧ ch ∈ cands := by
  intro cands
  induction cands with
  | nil => intro db ch h; simp [scanChannels] at h
  | cons c rest ih =>
    intro db ch h
    cases hp : isChannelLive (probe c.channelArn) with
    | error e => simp [scanChannels, hp] at h
    | ok b =>
      cases b with
      | false =>
        simp [scanChannels, hp] at h
        subst h
        exact ⟨hp, List.mem_cons_self _ _⟩
      | true =>
        simp only [scanChannels, hp] at h
        obtain ⟨h1, h2⟩ := ih (markChannelActive db c.id) ch h
        exact ⟨h1, List.mem_cons_of_mem _ h2⟩

theorem scanChannels_none_marked (probe : String → GetStreamOutcome) :
    ∀ (cands : List Channel) (db : Db),
      (scanChannels probe cands db).1 = .ok none →
      ∀ c ∈ cands, isChannelLive (probe c.channelArn) = .ok true ∧
        busyAll (scanChannels probe cands db).2 c.id := by
  intro cands
  induction cands with
  | nil => intro db _ c hc; simp at hc
  | cons c rest ih =>
    intro db h d hd
    cases hp : isChannelLive (probe c.channelArn) with
    | error e => simp [scanChannels, hp] at h
    | ok b =>
      cases b with
      | false => simp [scanChannels, hp] at h
      | true =>
        simp only [scanChannels, hp] at h ⊢
        rcases List.mem_cons.mp hd with rfl | hd2
        · exact ⟨hp, scanChannels_busyAll_persist probe d.id rest _
            (busyAll_markChannelActive_self db d.id)⟩
        · exact ih (markChannelActive db c.id) h d hd2

theorem scanChannels_some_prefix (probe : String → GetStreamOutcome) :
    ∀ (cands : List Channel) (db : Db) (ch : Channel),
      (scanChannels probe cands db).1 = .ok (some ch) →
      ∃ pre post, cands = pre ++ ch :: post ∧
        ∀ c ∈ pre, isChannelLive (probe c.channelArn) = .ok true ∧
          busyAll (scanChannels probe cands db).2 c.id := by
  intro cands
  induction cands with
  | nil => intro db ch h; simp [scanChannels] at h
  | cons c rest ih =>
    intro db ch h
    cases hp : isChannelLive (probe c.channelArn) with
    | error e => simp [scanChannels, hp] at h
    | ok b =>
      cases b with
      | false =>
        simp [scanChannels, hp] at h
        subst h
        exact ⟨[], rest, rfl, by simp⟩
      | true =>
        simp only [scanChannels, hp] at h ⊢
        obtain ⟨pre, post, heq, hpre⟩ := ih (markChannelActive db c.id) ch h
        refine ⟨c :: pre, post, by simp [heq], ?_⟩
        intro d hd
        rcases List.mem_cons.mp hd with rfl | hd2
        · exact ⟨hp, scanChannels_busyAll_persist probe d.id rest _
            (busyAll_markChannelActive_self db d.id)⟩
        · exact hpre d hd2

theorem scanChannels_selected_free (probe : String → GetStreamOutcome) :
    ∀ (cands : List Channel) (db : Db) (ch : Channel),
      (cands.map Channel.id).Nodup →
      freeAll db ch.id →
      (scanChannels probe cands db).1 = .ok (some ch) →
      freeAll (scanChannels probe cands db).2 ch.id := by
  intro cands
  induction cands with
  | nil => intro db ch _ _ h; simp [scanChannels] at h
  | cons c rest ih =>
    intro db ch hnd hfree h
    cases hp : isChannelLive (probe c.channelArn) with
    | error e => simp [scanChannels, hp] at h
    | ok b =>
      cases b with
      | false =>
        simp [scanChannels, hp] at h ⊢
        subst h
        exact hfree
      | true =>
        simp only [scanChannels, hp] at h ⊢
        have hmem : ch ∈ rest := (scanChannels_selected_not_live probe rest _ ch h).2
        have hne : c.id ≠ ch.id := by
          intro hcontra
          have : c.id ∈ rest.map Channel.id := hcontra ▸ List.mem_map_of_mem Channel.id hmem
          simp only [List.map_cons, List.nodup_cons] at hnd
          exact hnd.1 this
        have hnd2 : (rest.map Channel.id).Nodup := by
          simp only [List.map_cons, List.nodup_cons] at hnd
          exact hnd.2
        exact ih (markChannelActive db c.id) ch hnd2
          (freeAll_markChannelActive db ch.id c.id hne hfree) h

theorem scanChannelsPool_busyAll_persist (probe : String → GetStreamOutcome) (cid : String) :
    ∀ (cands : List Channel) (db : Db), busyAll db cid →
      busyAll (scanChannelsPool probe cands db).2 cid := by
  intro cands
  induction cands with
  | nil => intro db h; exact h
  | cons c rest ih =>
    intro db h
    cases hp : verifyChannelIsFree (probe c.channelArn) with
    | true => simpa [scanChannelsPool, hp] using h
    | false =>
      simp only [scanChannelsPool, hp]
      simp only [Bool.false_eq_true, if_false]
      exact ih _ (busyAll_markChannelActive _ _ _ h)

theorem scanChannelsPool_selected (probe : String → GetStreamOutcome) :
    ∀ (cands : List Channel) (db : Db) (ch : Channel),
      (scanChannelsPool probe cands db).1 = some ch →
      verifyChannelIsFree (probe ch.channelArn) = true ∧ ch ∈ cands := by
  intro cands
  induction cands with
  | nil => intro db ch h; simp [scanChannelsPool] at h
  | cons c rest ih =>
    intro db ch h
    cases hp : verifyChannelIsFree (probe c.channelArn) with
    | true =>
      simp [scanChannelsPool, hp] at h
      subst h
      exact ⟨hp, List.mem_cons_self _ _⟩
    | false =>
      simp [scanChannelsPool, hp] at h
      obtain ⟨h1, h2⟩ := ih (markChannelActive db c.id) ch h
      exact ⟨h1, List.mem_cons_of_mem _ h2⟩

theorem scanChannelsPool_none (probe : String → GetStreamOutcome) :
    ∀ (cands : List Channel) (db : Db),
      (scanChannelsPool probe cands db).1 = none →
      ∀ c ∈ cands, verifyChannelIsFree (probe c.channelArn) = false ∧
        busyAll (scanChannelsPool probe cands db).2 c.id := by
  intro cands
  induction cands with
  | nil => intro db _ c hc; simp at hc
  | cons c rest ih =>
    intro db h d hd
    cases hp : verifyChannelIsFree (probe c.channelArn) with
    | true => simp [scanChannelsPool, hp] at h
    | false =>
      simp only [scanChannelsPool, hp] at h ⊢
      simp only [Bool.false_eq_true, if_false] at h ⊢
      rcases List.mem_cons.mp hd with rfl | hd2
      · exact ⟨hp, scanChannelsPool_busyAll_persist probe d.id rest _
          (busyAll_markChannelActive_self db d.id)⟩
      · exact ih (markChannelActive db c.id) h d hd2

/-! Claim theorems. -/

theorem length_filter_partition (l : List Channel) :
    l.length = (l.filter (fun c => c.isActive && c.isEnabled)).length
      + (l.filter (fun c => !c.isActive && c.isEnabled)).length
      + (l.filter (fun c => !c.isEnabled)).length := by
  induction l with
  | nil => rfl
  | cons c rest ih =>
    cases hA : c.isActive <;> cases hE : c.isEnabled <;>
      simp [List.filter_cons, hA, hE] <;> omega

/-- C10: the channel statistics partition the pool: `getChannelStats` counts
satisfy `total = active + free + disabled`, where active counts channels with
`isActive && isEnabled`, free counts `!isActive && isEnabled`, and disabled
counts `!isEnabled`, so every channel is counted exactly once. -/
theorem getChannelStats_partition (db : Db) :
    (getChannelStats db).total =
      (getChannelStats db).active + (getChannelStats db).free
        + (getChannelStats db).disabled := by
  simpa [getChannelStats] using length_filter_partition db.channels

theorem mem_poolCandidates (db : Db) (c : Channel) :
    c ∈ poolCandidates db ↔
      c ∈ db.channels ∧ c.isActive = false ∧ c.isEnabled = true := by
  unfold poolCandidates
  rw [(List.perm_insertionSort lastUsedLE _).mem_iff, List.mem_filter]
  simp

/-- C3 (amended): the pool candidate query used by
`StreamingService.findAvailableChannel` and `ChannelPoolService.findFreeChannel`
returns exactly the channels with `busy == false && enabled == true`, ordered
by `lastUsedAt` ascending with never-used channels LAST (PostgreSQL default
null ordering for ASC); the `IvsSimpleController.getAvailableChannel` query
filters only on `busy == false`, with no enabled filter and no ordering. -/
theorem candidateQuery_spec :
    (∀ db c, c ∈ poolCandidates db ↔
      c ∈ db.channels ∧ c.isActive = false ∧ c.isEnabled = true) ∧
    (∀ db, List.Sorted lastUsedLE (poolCandidates db)) ∧
    (∀ db c, c ∈ simpleChannelCandidates db ↔ c ∈ db.channels ∧ c.isActive = false) := by
  refine ⟨mem_poolCandidates, fun db => List.sorted_insertionSort _ _, ?_⟩
  intro db c
  simp [simpleChannelCandidates, List.mem_filter]

/-- C3 counterexample: a channel with `enabled == false` and `busy == false`
appears among the candidates of `IvsSimpleController.getAvailableChannel`,
refuting the claim that a disabled channel never appears among the
candidates. -/
theorem disabled_channel_in_simpleCandidates :
    chDisabledFree.isEnabled = false ∧ chDisabledFree.isActive = false ∧
    simpleChannelCandidates disabledDb = [chDisabledFree] := by
  decide

/-- C4: in the `findAvailableChannel` scan, a candidate the local store lists
free but whose remote probe confirms LIVE is never the selected channel; when
the scan finishes without selection every such candidate has been marked busy
in the resulting store, and when a channel is selected every candidate scanned
before it was live-probed and marked busy in the resulting store. -/
theorem liveDrift_never_selected_and_marked (db : Db)
    (probe : String → GetStreamOutcome) (c : Channel) (r : Option Channel)
    (hmem : c ∈ poolCandidates db)
    (hlive : isChannelLive (probe c.channelArn) = .ok true)
    (hrun : (findAvailableChannel db probe).1 = .ok r) :
    r ≠ some c ∧
    (r = none → busyAll (findAvailableChannel db probe).2 c.id) ∧
    (∀ ch, r = some ch → ∃ pre post, poolCandidates db = pre ++ ch :: post ∧
      ∀ d ∈ pre, isChannelLive (probe d.channelArn) = .ok true ∧
        busyAll (findAvailableChannel db probe).2 d.id) := by
  refine ⟨?_, ?_, ?_⟩
  · intro hc
    subst hc
    have h2 := (scanChannels_selected_not_live probe (poolCandidates db) db c hrun).1
    rw [hlive] at h2
    simp at h2
  · intro hnone
    subst hnone
    exact (scanChannels_none_marked probe (poolCandidates db) db hrun c hmem).2
  · intro ch hch
    subst hch
    exact scanChannels_some_prefix probe (poolCandidates db) db ch hrun

/-- C4 witness: concrete run with a drifted channel first in candidate order
and a genuinely free channel after it. -/
theorem liveDrift_witness :
    some chSpare ≠ some chDrift ∧
    (some chSpare = (none : Option Channel) →
      busyAll (findAvailableChannel driftDb driftProbe).2 chDrift.id) ∧
    (∀ ch, some chSpare = some ch →
      ∃ pre post, poolCandidates driftDb = pre ++ ch :: post ∧
        ∀ d ∈ pre, isChannelLive (driftProbe d.channelArn) = .ok true ∧
          busyAll (findAvailableChannel driftDb driftProbe).2 d.id) :=
  liveDrift_never_selected_and_marked driftDb driftProbe chDrift (some chSpare)
    (by decide) (by decide) (by decide)

/-- C5 (amended): in `ChannelPoolService.findFreeChannel` an inconclusive
probe (`verifyChannelIsFree` answers busy on a thrown error other than
`ResourceNotFoundException`/`ChannelNotBroadcasting`) is treated as busy: the
candidate is never selected, and when the scan finishes without selection the
candidate has been marked busy; the scan itself is total and cannot abort.  In
`StreamingService.findAvailableChannel` and
`IvsSimpleController.getAvailableChannel`, by contrast, such probe errors are
rethrown and abort the whole scan. -/
theorem poolScan_probe_failure_assumed_busy (db : Db)
    (probe : String → GetStreamOutcome) (c : Channel) (n : String)
    (hmem : c ∈ poolCandidates db)
    (hfail : probe c.channelArn = .failure n)
    (hn1 : n ≠ "ResourceNotFoundException")
    (hn2 : n ≠ "ChannelNotBroadcasting") :
    (∀ ch, (findFreeChannel db probe).1 = some ch →
      verifyChannelIsFree (probe ch.channelArn) = true ∧ ch ≠ c) ∧
    ((findFreeChannel db probe).1 = none →
      busyAll (findFreeChannel db probe).2 c.id) := by
  have hverify : verifyChannelIsFree (probe c.channelArn) = false := by
    rw [hfail]
    simp [verifyChannelIsFree, beq_iff_eq, hn1, hn2]
  constructor
  · intro ch hch
    have hsel := (scanChannelsPool_selected probe (poolCandidates db) db ch hch).1
    refine ⟨hsel, ?_⟩
    intro hcc
    subst hcc
    rw [hverify] at hsel
    simp at hsel
  · intro hnone
    exact (scanChannelsPool_none probe (poolCandidates db) db hnone c hmem).2

/-- C5 witness: concrete pool-service run in which probing the first candidate
throws `InternalError`; the scan skips it, marks it busy and selects the next
candidate. -/
theorem poolScan_probe_failure_witness :
    (∀ ch, (findFreeChannel driftDb failProbe).1 = some ch →
      verifyChannelIsFree (failProbe ch.channelArn) = true ∧ ch ≠ chDrift) ∧
    ((findFreeChannel driftDb failProbe).1 = none →
      busyAll (findFreeChannel driftDb failProbe).2 chDrift.id) :=
  poolScan_probe_failure_assumed_busy driftDb failProbe chDrift "InternalError"
    (by decide) (by decide) (by decide) (by decide)

/-- C5 counterexample: the same store and probe under
`StreamingService.findAvailableChannel`: the transient probe error is
rethrown, the whole scan aborts with the error, the candidate is neither
skipped nor marked and no later candidate is considered — refuting the claim
that the allocation scan never aborts because of an inconclusive probe. -/
theorem unifiedScan_aborts_on_probe_failure :
    findAvailableChannel driftDb failProbe = (.error "InternalError", driftDb) := by
  decide

/-- C1 (code bug): `assignChannelToSession` guards with a plain read followed
by an unconditional update, not an atomic conditional write; in the
interleaving where both concurrent calls run their check while the other is
suspended in stream-key creation, BOTH calls succeed, and after the callers
record the assignment both sessions hold `assignedChannel == c1` — refuting
"exactly one succeeds" and "at most one session holds the channel". -/
theorem racingAssigns_double_assignment :
    (racingAssigns raceDb "c1" "s1" "s2" "k1" "k2" 5 6).1 = .ok "k1" ∧
    (racingAssigns raceDb "c1" "s1" "s2" "k1" "k2" 5 6).2.1 = .ok "k2" ∧
    (∀ s ∈ (recordAssignment (recordAssignment
        (racingAssigns raceDb "c1" "s1" "s2" "k1" "k2" 5 6).2.2 "s1" "c1" "k1" 5)
        "s2" "c1" "k2" 6).sessions,
      s.ivsChannelId = some "c1" ∧ s.status = .live) := by
  decide

/-- C2 (code bug): `StreamingService.endSession` frees the channel row FIRST
and only then commits the session row to ENDED: in the store the code passes
through after its first write, channel c1 is already free while session s1 is
still LIVE.  `ChannelPoolService.releaseChannel` itself asserts the opposite
order (it errors while a referencing session is LIVE), and the part_006
`endSession` calls it exactly in that state, so there the release is swallowed
and the channel stays busy. -/
theorem endSession_frees_channel_while_live :
    (∀ c ∈ (releaseChannelRow liveDb "c1").channels, c.id = "c1" → c.isActive = false) ∧
    (∀ s ∈ (releaseChannelRow liveDb "c1").sessions, s.id = "s1" → s.status = .live) ∧
    endSession liveDb "s1" "u1" 99 =
      (.ok (), updateSession (releaseChannelRow liveDb "c1") "s1" (fun t =>
        { t with status := .ended, endedAt := some 99,
                 ivsChannelId := none, currentStreamKey := none })) ∧
    releaseChannelPool liveDb "c1" = (.error (.businessLogic activeSessionsMsg), liveDb) ∧
    (∀ c ∈ (endSessionPool liveDb "s1" "u1" 99).2.channels, c.isActive = true) := by
  decide

theorem findAvailableChannel_length (db : Db) (probe : String → GetStreamOutcome) :
    (findAvailableChannel db probe).2.channels.length = db.channels.length :=
  scanChannels_length probe (poolCandidates db) db

theorem findAvailableChannel_sessions (db : Db) (probe : String → GetStreamOutcome) :
    (findAvailableChannel db probe).2.sessions = db.sessions :=
  scanChannels_sessions probe (poolCandidates db) db

/-- C6 (amended): `StreamingService.getSessionCredentials` distinguishes the
two allocation-failure cases: when the scan yields no channel it throws the
pool-empty error exactly when zero channels exist in the store, and the
distinct pool-exhausted error otherwise; the part_006 `SessionService
.startSession`, by contrast, throws one undifferentiated error in both
cases. -/
theorem getSessionCredentials_pool_errors (db : Db) (sid uid : String)
    (probe : String → GetStreamOutcome) (issueKey : String → Except ServiceErr String)
    (now : Nat) (s : ScheduledSession)
    (hs : findSession db sid = some s)
    (ho : s.mentorUserId = uid)
    (hk : s.currentStreamKey = none)
    (hscan : (findAvailableChannel db probe).1 = .ok none) :
    ((getSessionCredentials db sid uid probe issueKey now).1 =
        .error (.businessLogic poolEmptyMsg) ↔ db.channels = []) ∧
    (db.channels ≠ [] →
      (getSessionCredentials db sid uid probe issueKey now).1 =
        .error (.businessLogic poolExhaustedMsg)) ∧
    poolEmptyMsg ≠ poolExhaustedMsg := by
  have hlen := findAvailableChannel_length db probe
  rcases hfa : findAvailableChannel db probe with ⟨res, db1⟩
  rw [hfa] at hlen hscan
  have hres : res = .ok none := hscan
  subst hres
  have hu : (s.mentorUserId != uid) = false := by simp [ho]
  have hred : getSessionCredentials db sid uid probe issueKey now =
      if db1.channels.length == 0 then (.error (.businessLogic poolEmptyMsg), db1)
      else (.error (.businessLogic poolExhaustedMsg), db1) := by
    unfold getSessionCredentials
    rw [hs]
    simp only [hu, Bool.false_eq_true, if_false, hk]
    rcases hbind : s.ivsChannelId.bind (fun cid => findChannel db cid) with _ | ch <;>
      simp only [hbind] <;> rw [hfa] <;> simp only [allocAndAssign]
  by_cases h0 : db.channels = []
  · have hl0 : (db1.channels.length == 0) = true := by
      simp [hlen, h0]
    rw [hred, hl0]
    refine ⟨by simp [h0], by intro hc; exact absurd h0 hc, by decide⟩
  · have hl0 : (db1.channels.length == 0) = false := by
      simp only [beq_eq_false_iff_ne, ne_eq, hlen]
      simpa using fun hc => h0 (List.length_eq_zero.mp hc)
    rw [hred, hl0]
    refine ⟨?_, fun _ => by simp, by decide⟩
    constructor
    · intro hc
      simp only [Bool.false_eq_true, if_false] at hc
      exact absurd hc (by decide)
    · intro hc
      exact absurd hc h0

/-- C6 witness: an owned scheduled session against an empty pool — the theorem
applies and both sides of the iff hold. -/
theorem getSessionCredentials_pool_errors_witness :
    (((getSessionCredentials emptyPoolDb "s1" "u1" probeNone keyOk 4).1 =
        .error (.businessLogic poolEmptyMsg) ↔ emptyPoolDb.channels = []) ∧
     (emptyPoolDb.channels ≠ [] →
       (getSessionCredentials emptyPoolDb "s1" "u1" probeNone keyOk 4).1 =
         .error (.businessLogic poolExhaustedMsg)) ∧
     poolEmptyMsg ≠ poolExhaustedMsg) :=
  getSessionCredentials_pool_errors emptyPoolDb "s1" "u1" probeNone keyOk 4 sessSched1
    (by decide) (by decide) (by decide) (by decide)

/-- C6 counterexample: the part_006 `startSession` throws the SAME
`noFreeChannelsMsg` error with an empty pool (zero channels registered) as
with an exhausted pool, so allocation does not fail with a distinct pool-empty
error exactly when zero channels exist. -/
theorem startSessionPool_no_distinct_pool_empty_error :
    emptyPoolDb.channels = [] ∧ busyPoolDb.channels ≠ [] ∧
    (startSessionPool emptyPoolDb "s1" "u1" probeNone keyOk 5).1 =
      .error (.businessLogic noFreeChannelsMsg) ∧
    (startSessionPool busyPoolDb "s1" "u1" probeNone keyOk 5).1 =
      .error (.businessLogic noFreeChannelsMsg) := by
  decide

/-- C7 (amended): only the part_006 `SessionService.startSession` enforces the
full guard: with the ownership check passed, a LIVE, CANCELLED or ENDED
session is each rejected with its own distinct error and the store is left
unchanged; the unified `StreamingService.startSession` rejects only LIVE, so a
CANCELLED or ENDED session is started there. -/
theorem startSessionPool_rejects_non_scheduled (db : Db) (sid uid : String)
    (probe : String → GetStreamOutcome) (issueKey : String → Except ServiceErr String)
    (now : Nat) (s : ScheduledSession)
    (hs : findSession db sid = some s)
    (ho : s.mentorUserId = uid) :
    (s.status = .live → startSessionPool db sid uid probe issueKey now =
      (.error (.businessLogic alreadyLiveMsg), db)) ∧
    (s.status = .cancelled → startSessionPool db sid uid probe issueKey now =
      (.error (.businessLogic cancelledGuardMsg), db)) ∧
    (s.status = .ended → startSessionPool db sid uid probe issueKey now =
      (.error (.businessLogic endedGuardMsg), db)) ∧
    (alreadyLiveMsg ≠ cancelledGuardMsg ∧ alreadyLiveMsg ≠ endedGuardMsg ∧
      cancelledGuardMsg ≠ endedGuardMsg) := by
  have hu : (s.mentorUserId != uid) = false := by simp [ho]
  refine ⟨?_, ?_, ?_, by decide⟩ <;> intro hst <;>
    · unfold startSessionPool
      rw [hs]
      simp [hu, hst]

/-- C7 witness: the guard theorem applied to the LIVE fixture session. -/
theorem startSessionPool_rejects_witness :
    ((sessLive1.status = .live → startSessionPool liveDb "s1" "u1" probeNone keyOk 3 =
       (.error (.businessLogic alreadyLiveMsg), liveDb)) ∧
     (sessLive1.status = .cancelled → startSessionPool liveDb "s1" "u1" probeNone keyOk 3 =
       (.error (.businessLogic cancelledGuardMsg), liveDb)) ∧
     (sessLive1.status = .ended → startSessionPool liveDb "s1" "u1" probeNone keyOk 3 =
       (.error (.businessLogic endedGuardMsg), liveDb)) ∧
     (alreadyLiveMsg ≠ cancelledGuardMsg ∧ alreadyLiveMsg ≠ endedGuardMsg ∧
       cancelledGuardMsg ≠ endedGuardMsg)) :=
  startSessionPool_rejects_non_scheduled liveDb "s1" "u1" probeNone keyOk 3 sessLive1
    (by decide) (by decide)

/-- C7 counterexample: the unified `StreamingService.startSession` does not
reject a CANCELLED session: the call succeeds and flips it to LIVE, refuting
the claim that every non-SCHEDULED session is rejected and left unchanged. -/
theorem startSession_accepts_cancelled :
    sessCancelled.status = .cancelled ∧
    (startSessionUnified cancelledDb "s1" "u1" probeNone 7).1 = .ok () ∧
    (∀ s ∈ (startSessionUnified cancelledDb "s1" "u1" probeNone 7).2.sessions,
      s.status = .live) := by
  decide

/-- C8: when stream-key issuance fails during `getSessionCredentials`, the call
returns that error and the channel selected in that attempt ends with
`busy == false` in the resulting store — no channel is left stranded busy by a
failed allocation.  (In this code the key block runs BEFORE the busy-marking
writes, so the rollback the claim describes is vacuous: the claimed channel
was never marked.) -/
theorem failed_key_issuance_leaves_channel_free (db : Db) (sid uid : String)
    (probe : String → GetStreamOutcome) (issueKey : String → Except ServiceErr String)
    (now : Nat) (s : ScheduledSession) (ch : Channel) (e : ServiceErr)
    (hnd : (db.channels.map Channel.id).Nodup)
    (hs : findSession db sid = some s)
    (ho : s.mentorUserId = uid)
    (hk : s.currentStreamKey = none)
    (hscan : (findAvailableChannel db probe).1 = .ok (some ch))
    (hkey : issueKey ch.channelArn = .error e) :
    (getSessionCredentials db sid uid probe issueKey now).1 = .error e ∧
    freeAll (getSessionCredentials db sid uid probe issueKey now).2 ch.id := by
  have hchmem : ch ∈ poolCandidates db :=
    (scanChannels_selected_not_live probe (poolCandidates db) db ch hscan).2
  have hmem2 := (mem_poolCandidates db ch).mp hchmem
  have hfree : freeAll db ch.id := by
    intro c hc hid
    have hcc : c = ch := List.inj_on_of_nodup_map hnd hc hmem2.1 hid
    rw [hcc]
    exact hmem2.2.1
  have hndC : ((poolCandidates db).map Channel.id).Nodup := by
    have hperm : List.Perm (poolCandidates db)
        (db.channels.filter (fun c => !c.isActive && c.isEnabled)) :=
      List.perm_insertionSort lastUsedLE _
    have hsub : List.Sublist
        ((db.channels.filter (fun c => !c.isActive && c.isEnabled)).map Channel.id)
        (db.channels.map Channel.id) :=
      (List.filter_sublist _).map _
    exact ((hperm.map Channel.id).nodup_iff).mpr (hnd.sublist hsub)
  have hfree1 : freeAll (findAvailableChannel db probe).2 ch.id :=
    scanChannels_selected_free probe (poolCandidates db) db ch hndC hfree hscan
  rcases hfa : findAvailableChannel db probe with ⟨res, db1⟩
  rw [hfa] at hscan hfree1
  have hres : res = .ok (some ch) := hscan
  subst hres
  have hu : (s.mentorUserId != uid) = false := by simp [ho]
  have hred : getSessionCredentials db sid uid probe issueKey now = (.error e, db1) := by
    unfold getSessionCredentials
    rw [hs]
    simp only [hu, Bool.false_eq_true, if_false, hk]
    rcases hbind : s.ivsChannelId.bind (fun cid => findChannel db cid) with _ | c2 <;>
      simp only [hbind] <;> rw [hfa] <;> simp only [allocAndAssign, hkey]
  rw [hred]
  exact ⟨rfl, hfree1⟩

/-- C8 witness: one free channel, a successful scan, and a key-issuance oracle
that throws: the call surfaces the error and channel c1 is still free. -/
theorem failed_key_issuance_witness :
    (getSessionCredentials poolDb "s1" "u1" probeNone keyFail 4).1 =
      .error (.gateway "InternalError") ∧
    freeAll (getSessionCredentials poolDb "s1" "u1" probeNone keyFail 4).2 chFree.id :=
  failed_key_issuance_leaves_channel_free poolDb "s1" "u1" probeNone keyFail 4 sessSched1
    chFree (.gateway "InternalError") (by decide) (by decide) (by decide) (by decide)
    (by decide) (by decide)

theorem sessionsInv_of_sessions_eq {db db2 : Db} (he : db2.sessions = db.sessions)
    (h : sessionsInv db) : sessionsInv db2 := by
  intro s hs
  exact h s (he ▸ hs)

theorem sessionsInv_updateSession (db : Db) (sid : String)
    (f : ScheduledSession → ScheduledSession) (h : sessionsInv db)
    (hf : ∀ t ∈ db.sessions, keyImpliesChannel (f t) ∧ liveImpliesChannel (f t)) :
    sessionsInv (updateSession db sid f) := by
  intro s hs
  simp only [updateSession, List.mem_map] at hs
  obtain ⟨t, ht, rfl⟩ := hs
  by_cases hid : t.id = sid
  · simp only [beq_iff_eq, if_pos hid]
    exact hf t ht
  · simp only [beq_iff_eq, if_neg hid]
    exact h t ht

/-- The allocation continuation preserves the session invariant: every branch
returns the scanned store or writes the session row with both a channel and a
key set. -/
theorem allocAndAssign_preserves_inv (sid : String)
    (issueKey : String → Except ServiceErr String) (now : Nat)
    (res : Except String (Option Channel)) (db1 : Db) (h1 : sessionsInv db1) :
    sessionsInv (allocAndAssign sid issueKey now (res, db1)).2 := by
  rcases res with e | opt
  · exact h1
  · rcases opt with _ | ch
    · by_cases h0 : (db1.channels.length == 0) = true
      · simp only [allocAndAssign, h0, if_true]
        exact h1
      · simp only [allocAndAssign]
        rw [if_neg h0]
        exact h1
    · rcases hkey : issueKey ch.channelArn with e | key
      · simp only [allocAndAssign, hkey]
        exact h1
      · simp only [allocAndAssign, hkey]
        refine sessionsInv_of_sessions_eq (updateChannel_sessions _ _ _) ?_
        refine sessionsInv_updateSession db1 sid _ h1 ?_
        intro t ht
        exact ⟨fun _ => rfl, fun _ => rfl⟩

/-- C9 (amended): `getSessionCredentials` and the unified `endSession` preserve
the session invariant (a stream key only with an assigned channel, LIVE only
with an assigned channel); the ivs-simple `stopSession` and the unified
`startSession` do not (see the counterexample: `stopSession` clears the
channel but not the stream key, and `startSession` can flip a channel-less
session to LIVE). -/
theorem credsAndEnd_preserve_invariant (db : Db) (sid uid : String)
    (probe : String → GetStreamOutcome) (issueKey : String → Except ServiceErr String)
    (now tnow : Nat) (h : sessionsInv db) :
    sessionsInv (getSessionCredentials db sid uid probe issueKey now).2 ∧
    sessionsInv (endSession db sid uid tnow).2 := by
  constructor
  · unfold getSessionCredentials
    rcases hsx : findSession db sid with _ | s
    · exact h
    · simp only [hsx]
      by_cases hu : (s.mentorUserId != uid) = true
      · simp only [hu, if_true]
        exact h
      · rw [if_neg hu]
        rcases hbind : s.ivsChannelId.bind (fun cid => findChannel db cid) with _ | ch <;>
          rcases hkk : s.currentStreamKey with _ | key <;>
          simp only [hbind, hkk]
        all_goals try exact h
        all_goals
          rcases hfa : findAvailableChannel db probe with ⟨res, db1⟩
          have hsess : db1.sessions = db.sessions := by
            have hh := findAvailableChannel_sessions db probe
            rw [hfa] at hh
            exact hh
          exact allocAndAssign_preserves_inv sid issueKey now res db1
            (sessionsInv_of_sessions_eq hsess h)
  · unfold endSession
    rcases hsx : findSession db sid with _ | s
    · exact h
    · simp only [hsx]
      by_cases hu : (s.mentorUserId != uid) = true
      · simp only [hu, if_true]
        exact h
      · rw [if_neg hu]
        have hbase : ∀ db1 : Db, db1.sessions = db.sessions →
            sessionsInv (updateSession db1 sid (fun t =>
              { t with status := .ended, endedAt := some tnow,
                       ivsChannelId := none, currentStreamKey := none })) := by
          intro db1 hdb1
          refine sessionsInv_updateSession db1 sid _ (sessionsInv_of_sessions_eq hdb1 h) ?_
          intro t ht
          constructor
          · intro hco
            simp [keyImpliesChannel] at hco
          · intro hst
            simp at hst
        rcases hch : s.ivsChannelId with _ | cid
        · exact hbase db rfl
        · exact hbase (releaseChannelRow db cid) rfl

/-- C9 witness: the preservation theorem applied to a store satisfying the
invariant. -/
theorem credsAndEnd_preserve_invariant_witness :
    sessionsInv (getSessionCredentials poolDb "s1" "u1" probeNone keyOk 4).2 ∧
    sessionsInv (endSession poolDb "s1" "u1" 5).2 :=
  credsAndEnd_preserve_invariant poolDb "s1" "u1" probeNone keyOk 4 5 (by decide)

/-- C9 counterexample: from an invariant-satisfying store, the ivs-simple
`stopSession` clears the session channel but not `currentStreamKey`, producing
a session with a stream key and no assigned channel — a session operation that
does not preserve the invariant. -/
theorem stopSession_breaks_invariant :
    sessionsInv liveDb ∧
    (stopSessionSimple liveDb "s1" "u1" false 9).1 = .ok () ∧
    ¬ sessionsInv (stopSessionSimple liveDb "s1" "u1" false 9).2 ∧
    (∀ s ∈ (stopSessionSimple liveDb "s1" "u1" false 9).2.sessions,
      s.currentStreamKey = some "k1" ∧ s.ivsChannelId = none) := by
  decide
